import Mathlib

set_option maxHeartbeats 1000000

/-! Shallow embedding of the macsmc SMC client (src/macsmc/src/lib.rs).

Machine integers are modelled as `Nat` / `Int` with explicit `% 2 ^ w`
where the source wraps; fallible code returns `Except`.  The two pieces
of behaviour outside the claims' scope — IEEE-754 `f32::from_ne_bytes`
decoding and lossy UTF-8 text decoding — are passed in as parameters of
the decoder (`DecodeEnv`); every claim here is independent of them. -/

/-- `enum InternalError` (src/macsmc/src/lib.rs, lines 1452-1462).
Leading underscores of the Rust variant names are dropped. -/
inductive InternalError where
  | SmcNotFound
  | SmcFailedToOpen (code : Int)
  | NotPrivlileged
  | UnknownSmc (code : Int) (sub : Nat)
  | UnknownKey
  | DataKeyError (tpe : Nat)
  | DataValueError
  | DataError (key : Nat) (tpe : Nat)
deriving DecidableEq

/-- `enum Error`, the public error type (lines 46-66). -/
inductive Error where
  | SmcNotAvailable
  | InsufficientPrivileges
  | SmcError (code : Int)
  | DataError (key : Nat) (tpe : Nat)
deriving DecidableEq

/-- `impl From<InternalError> for Error` (lines 1476-1489).
The three `unreachable!()` branches panic; a panic is modelled as `none`. -/
def errorFromInternal : InternalError → Option Error
  | .SmcNotFound => some .SmcNotAvailable
  | .SmcFailedToOpen _ => some .SmcNotAvailable
  | .NotPrivlileged => some .InsufficientPrivileges
  | .UnknownSmc code _ => some (.SmcError code)
  | .DataError key tpe => some (.DataError key tpe)
  | .UnknownKey => none
  | .DataValueError => none
  | .DataKeyError _ => none

/-- Big-endian composition of a byte list, i.e. `uN::from_be_bytes`
widened to `Nat` (for byte lists of the matching length). -/
def beNat (bs : List Nat) : Nat := bs.foldl (fun a b => a * 256 + b) 0

/-- The four big-endian bytes of a `u32`, as in `u32::to_be_bytes`. -/
def u32ToBeBytes (n : Nat) : List Nat :=
  [n / 16777216 % 256, n / 65536 % 256, n / 256 % 256, n % 256]

/-- Byte `i` (0-based, big-endian) of a `u32`. -/
def u32Byte (k : Nat) : Nat → Nat
  | 0 => k / 16777216 % 256
  | 1 => k / 65536 % 256
  | 2 => k / 256 % 256
  | _ => k % 256

/-- Two's-complement reading of a `w`-bit value, i.e. `iN::from_be_bytes`
widened to `Int` when applied to `beNat` of a byte list of length `w / 8`. -/
def twosComp (w v : Nat) : Int :=
  if 2 ^ (w - 1) ≤ v then (v : Int) - 2 ^ w else (v : Int)

/-- `fn char_to_int` (lines 1393-1406): hex digit value of an ASCII byte,
defaulting to 0. -/
def char_to_int (c : Nat) : Nat :=
  if 97 ≤ c ∧ c ≤ 102 then c - 97 + 10
  else if 48 ≤ c ∧ c ≤ 57 then c - 48
  else 0

/-- `const fn smc_key` (lines 1248-1252): FourCC bytes packed big-endian. -/
def smc_key (bs : List Nat) : Nat := beNat bs

/-- `CommandKey::set1` (lines 978-983): replace byte 1 with `b'0' + value`
(u8 addition wraps mod 256). -/
def CommandKey.set1 (key v : Nat) : Nat :=
  beNat ((u32ToBeBytes key).set 1 ((48 + v) % 256))

/-- `CommandKey::set2` (lines 985-990): replace byte 2 with `b'0' + value`. -/
def CommandKey.set2 (key v : Nat) : Nat :=
  beNat ((u32ToBeBytes key).set 2 ((48 + v) % 256))

/-- `static TEMP_CPU_CORE: CommandKey = smc_key(b"TC0C")` (line 1216). -/
def TEMP_CPU_CORE : Nat := smc_key [84, 67, 48, 67]

/-- The key queried by `Smc::cpu_core_temperature(core)` (lines 709-711):
`CpuCoreTemperature(core + 1)` where `read_impl!` with `==` resolves the
key as `TEMP_CPU_CORE.set2(self.0)` (lines 1178-1189, 1281); the u8
increment wraps mod 256. -/
def cpuCoreTemperatureKey (core : Nat) : Nat :=
  CommandKey.set2 TEMP_CPU_CORE ((core + 1) % 256)

/-- `enum DataValue` (lines 521-535). -/
inductive DataValue where
  | Flag (b : Bool)
  | Float (v : ℚ)
  | Int (v : ℤ)
  | Uint (v : Nat)
  | Str (s : String)
  | Unknown (bytes : List Nat)
deriving DecidableEq

/-- The two externally-defined decoding primitives used by
`DataValue::convert`: `f32::from_ne_bytes` (native-endian float of exactly
4 bytes) and `String::from_utf8_lossy`. No claim depends on their values. -/
structure DecodeEnv where
  f32FromNeBytes : List Nat → ℚ
  utf8Lossy : List Nat → String

/-- `DataValue::convert` (lines 1322-1390).  The first `match` on the full
four tag bytes handles "flag", "flt ", "hex_" (lengths 1/2/4/8 only, other
lengths fall through) and "ch8*"; the second `match` on the first two tag
bytes handles "fp", "sp", "ui", "si"; everything else falls through to
`Unknown(data)`.  `data.try_into()?` length failures become
`InternalError::_DataValueError` via `From<TryFromSliceError>`.
Fixed-point division by `1_u16 << f` is exact, so the `Float` payload of
the "fp"/"sp" branches is represented exactly as a rational. -/
def DataValue.convert (env : DecodeEnv) (data : List Nat) (tpe : Nat) :
    Except InternalError DataValue :=
  let t0 := u32Byte tpe 0
  let t1 := u32Byte tpe 1
  let t2 := u32Byte tpe 2
  let t3 := u32Byte tpe 3
  if t0 = 102 ∧ t1 = 108 ∧ t2 = 97 ∧ t3 = 103 then
    .ok (.Flag (match data with | [] => false | b :: _ => decide (b ≠ 0)))
  else if t0 = 102 ∧ t1 = 108 ∧ t2 = 116 ∧ t3 = 32 then
    if data.length = 4 then .ok (.Float (env.f32FromNeBytes data))
    else .error .DataValueError
  else if (t0 = 104 ∧ t1 = 101 ∧ t2 = 120 ∧ t3 = 95) ∧
      (data.length = 1 ∨ data.length = 2 ∨ data.length = 4 ∨ data.length = 8) then
    .ok (.Uint (beNat data))
  else if t0 = 99 ∧ t1 = 104 ∧ t2 = 56 ∧ t3 = 42 then
    .ok (.Str (env.utf8Lossy (data.takeWhile (fun b => b ≠ 0))))
  else if t0 = 102 ∧ t1 = 112 then
    if char_to_int t2 + char_to_int t3 = 16 then
      if data.length = 2 then
        .ok (.Float ((beNat data : ℚ) / 2 ^ char_to_int t3))
      else .error .DataValueError
    else .ok (.Unknown data)
  else if t0 = 115 ∧ t1 = 112 then
    if char_to_int t2 + char_to_int t3 = 15 then
      if data.length = 2 then
        .ok (.Float ((twosComp 16 (beNat data) : ℚ) / 2 ^ char_to_int t3))
      else .error .DataValueError
    else .ok (.Unknown data)
  else if t0 = 117 ∧ t1 = 105 then
    if t2 = 56 ∧ t3 = 32 then
      if data.length = 1 then .ok (.Uint (beNat data)) else .error .DataValueError
    else if t2 = 49 ∧ t3 = 54 then
      if data.length = 2 then .ok (.Uint (beNat data)) else .error .DataValueError
    else if t2 = 51 ∧ t3 = 50 then
      if data.length = 4 then .ok (.Uint (beNat data)) else .error .DataValueError
    else if t2 = 54 ∧ t3 = 52 then
      if data.length = 8 then .ok (.Uint (beNat data)) else .error .DataValueError
    else .ok (.Unknown data)
  else if t0 = 115 ∧ t1 = 105 then
    if t2 = 56 ∧ t3 = 32 then
      if data.length = 1 then .ok (.Int (twosComp 8 (beNat data)))
      else .error .DataValueError
    else if t2 = 49 ∧ t3 = 54 then
      if data.length = 2 then .ok (.Int (twosComp 16 (beNat data)))
      else .error .DataValueError
    else if t2 = 51 ∧ t3 = 50 then
      if data.length = 4 then .ok (.Int (twosComp 32 (beNat data)))
      else .error .DataValueError
    else if t2 = 54 ∧ t3 = 52 then
      if data.length = 8 then .ok (.Int (twosComp 64 (beNat data)))
      else .error .DataValueError
    else .ok (.Unknown data)
  else .ok (.Unknown data)

/-- The tag/length combinations that `DataValue::convert` recognizes, i.e.
the branch conditions under which it does not fall through to the final
`Unknown(data)` line. -/
def recognizedTag (data : List Nat) (tpe : Nat) : Prop :=
  let t0 := u32Byte tpe 0
  let t1 := u32Byte tpe 1
  let t2 := u32Byte tpe 2
  let t3 := u32Byte tpe 3
  (t0 = 102 ∧ t1 = 108 ∧ t2 = 97 ∧ t3 = 103) ∨
  (t0 = 102 ∧ t1 = 108 ∧ t2 = 116 ∧ t3 = 32) ∨
  ((t0 = 104 ∧ t1 = 101 ∧ t2 = 120 ∧ t3 = 95) ∧
    (data.length = 1 ∨ data.length = 2 ∨ data.length = 4 ∨ data.length = 8)) ∨
  (t0 = 99 ∧ t1 = 104 ∧ t2 = 56 ∧ t3 = 42) ∨
  (t0 = 102 ∧ t1 = 112 ∧ char_to_int t2 + char_to_int t3 = 16) ∨
  (t0 = 115 ∧ t1 = 112 ∧ char_to_int t2 + char_to_int t3 = 15) ∨
  (t0 = 117 ∧ t1 = 105 ∧
    ((t2 = 56 ∧ t3 = 32) ∨ (t2 = 49 ∧ t3 = 54) ∨ (t2 = 51 ∧ t3 = 50) ∨ (t2 = 54 ∧ t3 = 52))) ∨
  (t0 = 115 ∧ t1 = 105 ∧
    ((t2 = 56 ∧ t3 = 32) ∨ (t2 = 49 ∧ t3 = 54) ∨ (t2 = 51 ∧ t3 = 50) ∨ (t2 = 54 ∧ t3 = 52)))

instance (data : List Nat) (tpe : Nat) : Decidable (recognizedTag data tpe) := by
  unfold recognizedTag; infer_instance

/-- A decode environment with arbitrary concrete primitives, for witnesses. -/
def env0 : DecodeEnv := ⟨fun _ => 0, fun _ => ""⟩

/-- `struct SMCVal` (lines 1687-1694), as produced by `_smc_read_key`. -/
structure SMCVal where
  data_size : Nat
  data_type : Nat
  bytes : List Nat
deriving DecidableEq

/-- The observable part of the `SMCKeyData` response buffer of one channel
call: the `result` status byte and the `key_info`/`bytes` fields read by
`_smc_read_key` (lines 1641-1653). -/
structure SMCKeyDataOut where
  result : Nat
  data_type : Nat
  data_size : Nat
  bytes : List Nat
deriving DecidableEq

/-- `RETURN_NOT_PRIVILEGED = SYS_IOKIT | SUB_IOKIT_COMMON | 0x2c1`
(lines 1520-1522) evaluated as an `i32`: `0xE00002C1` = -536870207. -/
def RETURN_NOT_PRIVILEGED : Int := -536870207

/-- The error classification of `_smc_call` (lines 1825-1852), as a function
of the kernel return code and the `result` byte of the response. -/
def _smc_call (kr : Int) (outResult : Nat) : Except InternalError Unit :=
  if kr = RETURN_NOT_PRIVILEGED then .error .NotPrivlileged
  else if kr ≠ 0 then .error (.UnknownSmc kr outResult)
  else if outResult = 132 then .error .UnknownKey
  else .ok ()

/-- `_smc_read_key` (lines 1758-1786), parameterized by the channel's two
responses (KeyInfo call, then Data call), each a kernel return code plus a
response buffer. -/
def _smc_read_key (call1 call2 : Int × SMCKeyDataOut) : Except InternalError SMCVal :=
  match _smc_call call1.1 call1.2.result with
  | .error e => .error e
  | .ok _ =>
    let data_type := call1.2.data_type
    let data_size := call1.2.data_size
    if 32 < data_size then .error (.DataKeyError data_type)
    else
      match _smc_call call2.1 call2.2.result with
      | .error e => .error e
      | .ok _ => .ok ⟨data_size, data_type, call2.2.bytes⟩

/-- `SMCConnection::try_read_value` (lines 1593-1607), parameterized by the
channel behaviour `readKey` (the `_smc_read_key` round trip) and by the
read action's output parser.  Note that only the `readKey` error and the
`op.parse` error are re-tagged; the `DataValue::convert` error on line 1602
is propagated by `?` unchanged. -/
def try_read_value {α : Type} (env : DecodeEnv)
    (readKey : Nat → Except InternalError SMCVal) (key : Nat)
    (parse : DataValue → Except InternalError α) : Except InternalError α :=
  match readKey key with
  | .error (.DataKeyError tpe) => .error (.DataError key tpe)
  | .error e => .error e
  | .ok r =>
    match DataValue.convert env (r.bytes.take r.data_size) r.data_type with
    | .error e => .error e
    | .ok d =>
      match parse d with
      | .error .DataValueError => .error (.DataError key r.data_type)
      | .error e => .error e
      | .ok v => .ok v

/-- `SMCConnection::opt_read_value` (lines 1581-1591). -/
def opt_read_value {α : Type} (env : DecodeEnv)
    (readKey : Nat → Except InternalError SMCVal) (key : Nat)
    (parse : DataValue → Except InternalError α) : Except InternalError (Option α) :=
  match try_read_value env readKey key parse with
  | .ok r => .ok (some r)
  | .error .UnknownKey => .ok none
  | .error e => .error e

/-- `SMCConnection::read_value` (lines 1573-1579): `opt_read_value`
followed by `unwrap_or_default`; the output type's `Default` value is
passed explicitly. -/
def read_value {α : Type} (env : DecodeEnv)
    (readKey : Nat → Except InternalError SMCVal) (key : Nat)
    (parse : DataValue → Except InternalError α) (dflt : α) :
    Except InternalError α :=
  match opt_read_value env readKey key parse with
  | .ok o => .ok (o.getD dflt)
  | .error e => .error e

/-- `struct Celsius(pub f32)` (line 80); the payload is modelled as ℚ. -/
structure Celsius where
  val : ℚ
deriving DecidableEq

/-- `impl ValueParser for Celsius` (lines 1010-1017). -/
def Celsius.parse : DataValue → Except InternalError Celsius
  | .Float v => .ok ⟨v⟩
  | _ => .error .DataValueError

/-- `struct BatteryStatus` (lines 1041-1046). -/
structure BatteryStatus where
  charging : Bool
  ac_present : Bool
  health_ok : Bool
deriving DecidableEq

/-- `impl ValueParser for BatteryStatus` (lines 1048-1064). -/
def BatteryStatus.parse : DataValue → Except InternalError BatteryStatus
  | .Uint v =>
    .ok ⟨decide (v &&& 1 = 1), decide (v &&& 2 = 2), decide (v &&& 64 = 64)⟩
  | _ => .error .DataValueError

/-- The cursor pair of the `iter_impl!` iterators (lines 871-875): `next`
ascending, `max` fixed at construction to the cardinality; the `$range`
type (`u8` or `u32`) always holds both. -/
structure IterState where
  next : Nat
  max : Nat
deriving DecidableEq

/-- `Iterator::next` of `iter_impl!` (lines 887-897): one forward step,
returning the yielded item (`none` = iterator exhausted) and the new state.
On a fetch error the cursor is not advanced. -/
def nextStep {E A : Type} (get : Nat → Except E A) (s : IterState) :
    Option (Except E A) × IterState :=
  if s.max ≤ s.next then (none, s)
  else
    match get s.next with
    | .ok v => (some (.ok v), ⟨s.next + 1, s.max⟩)
    | .error e => (some (.error e), s)

/-- `DoubleEndedIterator::next_back` of `iter_impl!` (lines 920-930): the
element at index `self.max` is fetched, then `max` is decremented
(`saturating_sub(1)`, i.e. `Nat` subtraction). -/
def backStep {E A : Type} (get : Nat → Except E A) (s : IterState) :
    Option (Except E A) × IterState :=
  if s.max ≤ s.next then (none, s)
  else
    match get s.max with
    | .ok v => (some (.ok v), ⟨s.next, s.max - 1⟩)
    | .error e => (some (.error e), s)

/-- `usize::MAX` on the 64-bit targets the crate compiles for. -/
def USIZE_MAX : Nat := 18446744073709551615

/-- `Iterator::nth` of `iter_impl!` (lines 913-916): `self.next` is widened
to `usize`, `saturating_add(n)` is applied, and the result is cast back
with `as $range`, which truncates mod `2 ^ W` (`W` = 8 or 32); then one
forward step is taken. -/
def nthStep {E A : Type} (W : Nat) (get : Nat → Except E A) (n : Nat)
    (s : IterState) : Option (Except E A) × IterState :=
  nextStep get ⟨min (s.next + n) USIZE_MAX % 2 ^ W, s.max⟩

/-- `DoubleEndedIterator::nth_back` of `iter_impl!` (lines 932-935):
`saturating_sub(n)` in `usize` (= `Nat` subtraction), truncated back with
`as $range`; then one backward step. -/
def nthBackStep {E A : Type} (W : Nat) (get : Nat → Except E A) (n : Nat)
    (s : IterState) : Option (Except E A) × IterState :=
  backStep get ⟨s.next, (s.max - n) % 2 ^ W⟩

/-- Iterate `Iterator::next` a given number of times, collecting the
yielded items in order. -/
def runForward {E A : Type} (get : Nat → Except E A) :
    Nat → IterState → List (Option (Except E A)) × IterState
  | 0, s => ([], s)
  | k + 1, s =>
    let p := nextStep get s
    let q := runForward get k p.2
    (p.1 :: q.1, q.2)

/-- `struct BatteryDetail` (lines 336-355); the `f32` fields are modelled
as ℚ, the `u32`/`i32` fields as `Nat`/`Int`. -/
structure BatteryDetail where
  cycles : Nat
  current_capacity : Nat
  full_capacity : Nat
  amperage : ℤ
  voltage : ℚ
  power : ℚ

/-- `BatteryDetail::time_remaining` (lines 379-386); the returned
`Duration` is modelled as its (exact) number of seconds. -/
def BatteryDetail.time_remaining (b : BatteryDetail) : Option ℚ :=
  if 0 ≤ b.amperage then none
  else some (3600 * ((b.current_capacity : ℚ) / ((-b.amperage : ℤ) : ℚ)))

/-- `BatteryDetail::time_until_full` (lines 392-400); the u32 subtraction
`full_capacity - current_capacity` wraps mod `2 ^ 32` in release builds. -/
def BatteryDetail.time_until_full (b : BatteryDetail) : Option ℚ :=
  if b.amperage ≤ 0 then none
  else
    some (3600 * ((((b.full_capacity + 4294967296 - b.current_capacity) % 4294967296 : Nat) : ℚ) /
      ((b.amperage : ℤ) : ℚ)))

/-- C1: the claim says that a `DataValue::convert` failure inside a read
action surfaces as `Error::DataError{key, tpe}` and that
`From<InternalError> for Error` never reaches an `unreachable!()` branch
for such failures.  The code violates this: `try_read_value` propagates
the convert error with `?` without re-tagging it, so for a channel
response with type tag "flt " and data size 3 the surfaced internal error
is `_DataValueError`, and converting it to a public `Error` panics
(modelled as `none`). -/
theorem c1_convert_failure_reaches_unreachable :
    try_read_value env0
        (fun _ => .ok ⟨3, smc_key [102, 108, 116, 32], [0, 0, 0]⟩) 1
        Celsius.parse = .error .DataValueError ∧
    errorFromInternal .DataValueError = none :=
  ⟨rfl, rfl⟩

/-- C2: the claim says backward iteration from the end yields the same N
results as forward iteration in reverse order and only fetches indices in
`[0, N)`.  The code violates this: for cardinality 1 the first backward
step fetches the element at index 1 (= N, outside `[0, 1)`) because
`next_back` reads `self.max` before decrementing it, while forward
iteration yields the element at index 0. -/
theorem c2_next_back_fetches_index_N :
    backStep (fun i => (.ok i : Except Unit Nat)) ⟨0, 1⟩ = (some (.ok 1), ⟨0, 0⟩) ∧
    runForward (fun i => (.ok i : Except Unit Nat)) 1 ⟨0, 1⟩ = ([some (.ok 0)], ⟨1, 1⟩) :=
  ⟨rfl, rfl⟩

/-- C3: the claim says `nth` adjusts the cursor by saturating arithmetic
that never wraps the cursor's integer type, so the cursor never moves to
a smaller index.  The code violates this: `nth` saturates in `usize` but
then truncates with `as $range`; for a `u8`-ranged iterator at
`{next = 50, max = 60}`, `nth(206)` truncates `50 + 206 = 256` to cursor
`0 < 50` and fetches the already-visited element at index 0. -/
theorem c3_nth_wraps_the_cursor :
    nthStep 8 (fun i => (.ok i : Except Unit Nat)) 206 ⟨50, 60⟩ = (some (.ok 0), ⟨1, 60⟩) :=
  rfl

/-- C10: `time_remaining` returns `None` exactly when `amperage >= 0` and
`time_until_full` returns `None` exactly when `amperage <= 0`; at
`amperage = 0` both are `None`, so at most one of them ever returns a
duration. -/
theorem c10_time_remaining_until_full_none (b : BatteryDetail) :
    (b.time_remaining = none ↔ 0 ≤ b.amperage) ∧
    (b.time_until_full = none ↔ b.amperage ≤ 0) ∧
    (b.amperage = 0 → b.time_remaining = none ∧ b.time_until_full = none) ∧
    ¬(b.time_remaining ≠ none ∧ b.time_until_full ≠ none) := by
  have h1 : b.time_remaining = none ↔ 0 ≤ b.amperage := by
    unfold BatteryDetail.time_remaining
    split_ifs with h <;> simp [h]
  have h2 : b.time_until_full = none ↔ b.amperage ≤ 0 := by
    unfold BatteryDetail.time_until_full
    split_ifs with h <;> simp [h]
  refine ⟨h1, h2, fun h0 => ⟨h1.mpr (by omega), h2.mpr (by omega)⟩, fun hc => ?_⟩
  have ha1 := hc.1
  have ha2 := hc.2
  rw [Ne, h1] at ha1
  rw [Ne, h2] at ha2
  omega

/-- C6: parsing a battery-status tagged `Uint` value sets `charging` iff
bit 0x01 is set, `ac_present` iff bit 0x02 is set and `health_ok` iff bit
0x40 is set; in particular `0x43` decodes to all three flags true. -/
theorem c6_battery_status_bitfield (v : Nat) (s : BatteryStatus)
    (h : BatteryStatus.parse (.Uint v) = .ok s) :
    (s.charging = true ↔ v.testBit 0) ∧
    (s.ac_present = true ↔ v.testBit 1) ∧
    (s.health_ok = true ↔ v.testBit 6) ∧
    BatteryStatus.parse (.Uint 67) = .ok ⟨true, true, true⟩ := by
  have hb : ∀ i : Nat, (v &&& 2 ^ i = 2 ^ i) ↔ v.testBit i = true := by
    intro i
    rw [Nat.and_two_pow]
    cases hby : v.testBit i <;>
      simp [hby, (pow_pos (by norm_num : (0 : ℕ) < 2) i).ne,
        (pow_pos (by norm_num : (0 : ℕ) < 2) i).ne']
  have hs : s = ⟨decide (v &&& 1 = 1), decide (v &&& 2 = 2), decide (v &&& 64 = 64)⟩ := by
    simpa [BatteryStatus.parse] using h.symm
  subst hs
  refine ⟨?_, ?_, ?_, rfl⟩
  · have h0 := hb 0
    norm_num at h0
    simp [h0]
  · have h1 := hb 1
    norm_num at h1
    simp [h1]
  · have h6 := hb 6
    norm_num at h6
    simp [h6]

/-- Witness for C6 at the concrete bitfield value 0x43 = 67. -/
theorem c6_battery_status_bitfield_witness :
    (67 : Nat).testBit 0 = true ∧ (67 : Nat).testBit 1 = true ∧
    (67 : Nat).testBit 6 = true := by
  have h := c6_battery_status_bitfield 67 ⟨true, true, true⟩ (by rfl)
  exact ⟨h.1.mp rfl, h.2.1.mp rfl, h.2.2.1.mp rfl⟩

/-- C4: when the channel reports the key as unknown (kernel success with
response result code 132 on the KeyInfo call), `opt_read_value` returns
`Ok(None)` and `read_value` returns `Ok` of the output type's default
value; neither path returns an error, for every parser and every second
channel response. -/
theorem c4_unknown_key_yields_default {α : Type} (env : DecodeEnv) (key : Nat)
    (parse : DataValue → Except InternalError α) (dflt : α)
    (out : SMCKeyDataOut) (c2 : Int × SMCKeyDataOut) (h : out.result = 132) :
    opt_read_value env (fun _ => _smc_read_key (0, out) c2) key parse = .ok none ∧
    read_value env (fun _ => _smc_read_key (0, out) c2) key parse dflt = .ok dflt := by
  have hcall : _smc_call 0 out.result = .error .UnknownKey := by
    rw [h]; rfl
  have hread : _smc_read_key (0, out) c2 = .error .UnknownKey := by
    simp [_smc_read_key, hcall]
  have htry : try_read_value env (fun _ => _smc_read_key (0, out) c2) key parse
      = .error .UnknownKey := by
    simp [try_read_value, hread]
  constructor
  · simp [opt_read_value, htry]
  · simp [read_value, opt_read_value, htry, Option.getD]

/-- Witness for C4 at a concrete channel response and parser. -/
theorem c4_unknown_key_yields_default_witness :
    opt_read_value env0
        (fun _ => _smc_read_key (0, ⟨132, 0, 0, []⟩) (0, ⟨0, 0, 0, []⟩)) 5
        Celsius.parse = .ok none ∧
    read_value env0
        (fun _ => _smc_read_key (0, ⟨132, 0, 0, []⟩) (0, ⟨0, 0, 0, []⟩)) 5
        Celsius.parse ⟨0⟩ = .ok ⟨0⟩ :=
  c4_unknown_key_yields_default env0 5 Celsius.parse ⟨0⟩ ⟨132, 0, 0, []⟩
    (0, ⟨0, 0, 0, []⟩) rfl

/-- C5: for every byte buffer and every type tag that matches none of the
recognized forms — including "fp"/"sp" tags whose digit widths do not sum
to 16 resp. 15 and "hex_" with a byte length other than 1/2/4/8 —
`DataValue::convert` returns `Unknown` holding exactly the input bytes and
never an error, for every decode environment. -/
theorem c5_unrecognized_tag_gives_unknown (env : DecodeEnv) (data : List Nat)
    (tpe : Nat) (h : ¬ recognizedTag data tpe) :
    DataValue.convert env data tpe = .ok (.Unknown data) := by
  simp only [recognizedTag] at h
  simp only [DataValue.convert]
  set t0 := u32Byte tpe 0 with ht0
  set t1 := u32Byte tpe 1 with ht1
  set t2 := u32Byte tpe 2 with ht2
  set t3 := u32Byte tpe 3 with ht3
  have n1 : ¬(t0 = 102 ∧ t1 = 108 ∧ t2 = 97 ∧ t3 = 103) :=
    fun hc => h (Or.inl hc)
  have n2 : ¬(t0 = 102 ∧ t1 = 108 ∧ t2 = 116 ∧ t3 = 32) :=
    fun hc => h (Or.inr (Or.inl hc))
  have n3 : ¬((t0 = 104 ∧ t1 = 101 ∧ t2 = 120 ∧ t3 = 95) ∧
      (data.length = 1 ∨ data.length = 2 ∨ data.length = 4 ∨ data.length = 8)) :=
    fun hc => h (Or.inr (Or.inr (Or.inl hc)))
  have n4 : ¬(t0 = 99 ∧ t1 = 104 ∧ t2 = 56 ∧ t3 = 42) :=
    fun hc => h (Or.inr (Or.inr (Or.inr (Or.inl hc))))
  rw [if_neg n1, if_neg n2, if_neg n3, if_neg n4]
  by_cases hfp : t0 = 102 ∧ t1 = 112
  · rw [if_pos hfp, if_neg (fun hs =>
      h (Or.inr (Or.inr (Or.inr (Or.inr (Or.inl ⟨hfp.1, hfp.2, hs⟩))))))]
  · rw [if_neg hfp]
    by_cases hsp : t0 = 115 ∧ t1 = 112
    · rw [if_pos hsp, if_neg (fun hs =>
        h (Or.inr (Or.inr (Or.inr (Or.inr (Or.inr (Or.inl ⟨hsp.1, hsp.2, hs⟩)))))))]
    · rw [if_neg hsp]
      by_cases hui : t0 = 117 ∧ t1 = 105
      · have hsfx : ∀ p : Prop, ((t2 = 56 ∧ t3 = 32) ∨ (t2 = 49 ∧ t3 = 54) ∨
            (t2 = 51 ∧ t3 = 50) ∨ (t2 = 54 ∧ t3 = 52)) → p :=
          fun _ hc => absurd
            (h (Or.inr (Or.inr (Or.inr (Or.inr (Or.inr (Or.inr
              (Or.inl ⟨hui.1, hui.2, hc⟩)))))))) (fun hf => hf)
        rw [if_pos hui, if_neg (fun hc => hsfx False (Or.inl hc)),
          if_neg (fun hc => hsfx False (Or.inr (Or.inl hc))),
          if_neg (fun hc => hsfx False (Or.inr (Or.inr (Or.inl hc)))),
          if_neg (fun hc => hsfx False (Or.inr (Or.inr (Or.inr hc))))]
      · rw [if_neg hui]
        by_cases hsi : t0 = 115 ∧ t1 = 105
        · have hsfx : ∀ p : Prop, ((t2 = 56 ∧ t3 = 32) ∨ (t2 = 49 ∧ t3 = 54) ∨
              (t2 = 51 ∧ t3 = 50) ∨ (t2 = 54 ∧ t3 = 52)) → p :=
            fun _ hc => absurd
              (h (Or.inr (Or.inr (Or.inr (Or.inr (Or.inr (Or.inr
                (Or.inr ⟨hsi.1, hsi.2, hc⟩)))))))) (fun hf => hf)
          rw [if_pos hsi, if_neg (fun hc => hsfx False (Or.inl hc)),
            if_neg (fun hc => hsfx False (Or.inr (Or.inl hc))),
            if_neg (fun hc => hsfx False (Or.inr (Or.inr (Or.inl hc)))),
            if_neg (fun hc => hsfx False (Or.inr (Or.inr (Or.inr hc))))]
        · rw [if_neg hsi]

/-- Witness for C5: the tag "fp77" has digit sum 14 ≠ 16, so a 2-byte
buffer decodes to `Unknown([1, 2])`. -/
theorem c5_unrecognized_tag_gives_unknown_witness :
    ¬ recognizedTag [1, 2] (smc_key [102, 112, 55, 55]) ∧
    DataValue.convert env0 [1, 2] (smc_key [102, 112, 55, 55]) = .ok (.Unknown [1, 2]) :=
  ⟨by decide, c5_unrecognized_tag_gives_unknown env0 [1, 2]
    (smc_key [102, 112, 55, 55]) (by decide)⟩

/-- Byte-wise effect of writing byte 1 of a `u32`'s big-endian bytes. -/
lemma u32Byte_setByte1 (k w i : Nat) (hk : k < 4294967296) (hw : w < 256)
    (hi : i < 4) :
    u32Byte (beNat ((u32ToBeBytes k).set 1 w)) i
      = if i = 1 then w else u32Byte k i := by
  have hset : (u32ToBeBytes k).set 1 w
      = [k / 16777216 % 256, w, k / 256 % 256, k % 256] := rfl
  rw [hset]
  simp only [beNat, List.foldl]
  interval_cases i <;> norm_num [u32Byte] <;> omega

/-- Byte-wise effect of writing byte 2 of a `u32`'s big-endian bytes. -/
lemma u32Byte_setByte2 (k w i : Nat) (hk : k < 4294967296) (hw : w < 256)
    (hi : i < 4) :
    u32Byte (beNat ((u32ToBeBytes k).set 2 w)) i
      = if i = 2 then w else u32Byte k i := by
  have hset : (u32ToBeBytes k).set 2 w
      = [k / 16777216 % 256, k / 65536 % 256, w, k % 256] := rfl
  rw [hset]
  simp only [beNat, List.foldl]
  interval_cases i <;> norm_num [u32Byte] <;> omega

/-- C8: for every key and every instance index `n ≤ 9`, `set1` and `set2`
change exactly one byte of the key — the byte at the declared offset
(1 resp. 2), which becomes `b'0' + n` — and leave the other three bytes
unchanged. -/
theorem c8_set_changes_exactly_one_byte (k n i : Nat) (hk : k < 4294967296)
    (hn : n ≤ 9) (hi : i < 4) :
    u32Byte (CommandKey.set1 k n) i = (if i = 1 then 48 + n else u32Byte k i) ∧
    u32Byte (CommandKey.set2 k n) i = (if i = 2 then 48 + n else u32Byte k i) := by
  have hmod : (48 + n) % 256 = 48 + n := Nat.mod_eq_of_lt (by omega)
  constructor
  · unfold CommandKey.set1
    rw [hmod]
    exact u32Byte_setByte1 k (48 + n) i hk (by omega) hi
  · unfold CommandKey.set2
    rw [hmod]
    exact u32Byte_setByte2 k (48 + n) i hk (by omega) hi

/-- Witness for C8 at the fan key "F0Ac" = 0x46304163 = 1177567587 with
instance 3: byte 1 of `set1` and byte 2 of `set2` become `'3'` = 51. -/
theorem c8_set_changes_exactly_one_byte_witness :
    u32Byte (CommandKey.set1 1177567587 3) 1 = 51 ∧
    u32Byte (CommandKey.set2 1177567587 3) 2 = 51 ∧
    u32Byte (CommandKey.set1 1177567587 3) 0 = u32Byte 1177567587 0 := by
  have h1 := c8_set_changes_exactly_one_byte 1177567587 3 1 (by norm_num)
    (by norm_num) (by norm_num)
  have h2 := c8_set_changes_exactly_one_byte 1177567587 3 2 (by norm_num)
    (by norm_num) (by norm_num)
  have h0 := c8_set_changes_exactly_one_byte 1177567587 3 0 (by norm_num)
    (by norm_num) (by norm_num)
  refine ⟨by simpa using h1.1, by simpa using h2.2, by simpa using h0.1⟩

/-- C9: for every core index `n < 255` passed to the per-core CPU
temperature fetch, the key actually queried is "TC0C" with the byte at
offset 2 replaced by `b'0' + (n + 1)` (u8 arithmetic), and the other three
bytes are unchanged: iterator index `n` reads the sensor for core `n+1`. -/
theorem c9_cpu_core_key_is_one_based (n i : Nat) (hn : n < 255) (hi : i < 4) :
    u32Byte (cpuCoreTemperatureKey n) i
      = if i = 2 then (48 + (n + 1)) % 256 else u32Byte TEMP_CPU_CORE i := by
  have h1 : (n + 1) % 256 = n + 1 := Nat.mod_eq_of_lt (by omega)
  unfold cpuCoreTemperatureKey CommandKey.set2
  rw [h1]
  exact u32Byte_setByte2 TEMP_CPU_CORE ((48 + (n + 1)) % 256) i (by decide)
    (Nat.mod_lt _ (by norm_num)) hi

/-- Witness for C9 at core index 0: the queried key's byte 2 is `'1'` = 49
("TC1C"), while byte 0 stays `'T'` = 84. -/
theorem c9_cpu_core_key_is_one_based_witness :
    u32Byte (cpuCoreTemperatureKey 0) 2 = 49 ∧
    u32Byte (cpuCoreTemperatureKey 0) 0 = u32Byte TEMP_CPU_CORE 0 := by
  have h2 := c9_cpu_core_key_is_one_based 0 2 (by norm_num) (by norm_num)
  have h0 := c9_cpu_core_key_is_one_based 0 0 (by norm_num) (by norm_num)
  exact ⟨by simpa using h2, by simpa using h0⟩

/-- Forward iteration from cursor `i` with all fetches succeeding yields
exactly the elements at indices `i, i+1, ...` until `max`. -/
lemma runForward_all_ok {E A : Type} (get : Nat → Except E A) (v : Nat → A)
    (N : Nat) (hv : ∀ j, j < N → get j = .ok (v j)) :
    ∀ k i, i + k = N →
      runForward get k ⟨i, N⟩
        = ((List.range' i k).map (fun j => some (.ok (v j))), ⟨N, N⟩) := by
  intro k
  induction k with
  | zero =>
    intro i hi
    have hiN : i = N := by omega
    subst hiN
    simp [runForward]
  | succ k ih =>
    intro i hi
    have hiN : i < N := by omega
    have hstep : nextStep get ⟨i, N⟩ = (some (.ok (v i)), ⟨i + 1, N⟩) := by
      simp [nextStep, Nat.not_le.mpr hiN, hv i hiN]
    simp only [runForward, hstep]
    rw [ih (i + 1) (by omega)]
    simp [List.range'_succ]

/-- C7: for every bounded iterator constructed with cardinality `N` and
every fetch succeeding, forward iteration yields exactly `N` results — the
elements at indices `0, 1, ..., N-1` in that order — and then terminates
permanently: from the exhausted state every further forward step yields
nothing and leaves the state unchanged. -/
theorem c7_forward_yields_exactly_N {E A : Type} (get : Nat → Except E A)
    (v : Nat → A) (N : Nat) (hv : ∀ j, j < N → get j = .ok (v j)) :
    runForward get N ⟨0, N⟩
      = ((List.range N).map (fun j => some (.ok (v j))), ⟨N, N⟩) ∧
    ∀ k, runForward get k ⟨N, N⟩ = (List.replicate k none, ⟨N, N⟩) := by
  constructor
  · rw [List.range_eq_range']
    exact runForward_all_ok get v N hv N 0 (by omega)
  · intro k
    induction k with
    | zero => simp [runForward]
    | succ k ih =>
      have hstep : nextStep get ⟨N, N⟩ = (none, ⟨N, N⟩) := by
        simp [nextStep]
      simp [runForward, hstep, ih, List.replicate_succ]

/-- Witness for C7 at cardinality 2 with the identity fetch. -/
theorem c7_forward_yields_exactly_N_witness :
    runForward (fun i => (.ok i : Except Unit Nat)) 2 ⟨0, 2⟩
      = ([some (.ok 0), some (.ok 1)], ⟨2, 2⟩) ∧
    runForward (fun i => (.ok i : Except Unit Nat)) 3 ⟨2, 2⟩
      = ([none, none, none], ⟨2, 2⟩) := by
  have h := c7_forward_yields_exactly_N (fun i => (.ok i : Except Unit Nat))
    (fun i => i) 2 (fun j hj => rfl)
  refine ⟨?_, ?_⟩
  · rw [h.1]; rfl
  · rw [h.2 3]; rfl
